import Mathlib

/-!
Verification of the smart-initiatives application core.

A shallow embedding, in Lean 4, of the persistence and prompt-assembly core of
`src/app.py` (a Streamlit application backed by a SQLite database), together
with theorems settling the specification's claims about it.

Modelling conventions:
* The three SQLite tables (`initiatives`, `rag_knowledge`, `document_analysis`)
  are lists in insertion (rowid) order; `AUTOINCREMENT` ids are modelled as
  `length + 1` at insertion time.
* `CURRENT_TIMESTAMP` is modelled by an explicit `now : Nat` argument.
* `budget` is a SQLite REAL; the program only ever compares budgets with `<=`
  and interpolates them into strings, so it is modelled as `Int`.
* SQL `NULL` for the fresh `admin_feedback` column is modelled as `""`
  (the program only distinguishes truthiness, and empty string is falsy).
* The external HTTP round trip of `call_deepseek_api` is modelled by an
  explicit outcome value (`HttpOutcome`); the surrounding pure computation is
  translated exactly. Pages pass an abstract `api : String → String` standing
  for `fun prompt => call_deepseek_api` applied to the live transport.
* Python string slicing `s[:n]` and `len` act on code points, exactly as
  `List Char` operations on `String.data` do.
-/

namespace SmartInit

/-- Python slice `s[:n]`: the first `n` code points of `s`. -/
def strTake (s : String) (n : Nat) : String := ⟨s.data.take n⟩

/-- A row of the `initiatives` table (`src/app.py`, `init_db`). -/
structure Initiative where
  id : Nat
  employee_id : String
  employee_name : String
  department : String
  title : String
  description : String
  goals : String
  requirements : String
  budget : Int
  status : String
  ai_feedback : String
  admin_feedback : String
  created_at : Nat
  updated_at : Nat
  deriving Repr, DecidableEq

/-- A row of the `rag_knowledge` table: the context corpus. -/
structure RagEntry where
  id : Nat
  content : String
  category : String
  created_at : Nat
  deriving Repr, DecidableEq

/-- A row of the `document_analysis` table. -/
structure DocAnalysis where
  id : Nat
  file_name : String
  analysis_type : String
  analysis_result : String
  employee_id : Option String
  created_at : Nat
  deriving Repr, DecidableEq

/-- The whole persistent store (`data/initiatives.db`), each table in
insertion order. -/
structure DB where
  initiatives : List Initiative
  rag_knowledge : List RagEntry
  document_analysis : List DocAnalysis
  deriving Repr, DecidableEq

/-- The fields collected by the submission form of `submit_initiative_page`. -/
structure SubmitForm where
  employee_id : String
  employee_name : String
  department : String
  title : String
  budget : Int
  description : String
  goals : String
  requirements : String
  deriving Repr, DecidableEq

/-! ## `call_deepseek_api` (src/app.py lines 72-94) -/

/-- What `requests.post` handed back when no transport exception occurred.
`choicesContent` is `choices[0].message.content` of the JSON body when the
body has that shape; `none` when extracting it raises (the exception is
caught by the surrounding `try`, whose handler renders `parse_error`,
standing for `str(e)`). -/
structure ApiHttpResponse where
  status_code : Nat
  text : String
  choicesContent : Option String
  parse_error : String
  deriving Repr, DecidableEq

/-- Outcome of the HTTP round trip: a response, or a raised transport
exception with its `str(e)`. -/
inductive HttpOutcome where
  | response (r : ApiHttpResponse)
  | exn (msg : String)
  deriving Repr, DecidableEq

/-- `call_deepseek_api` (src/app.py lines 72-94), with the network effect
reified as the `HttpOutcome` argument: on a 200 response return
`choices[0].message.content`; on any other status return
`"Error: {status_code} - {text}"`; on an exception anywhere in the `try`
(transport failure or body-shape failure) return
`"Error calling API: {str(e)}"`. The function always returns a `String`
and never raises to its caller. -/
def call_deepseek_api : HttpOutcome → String
  | .response r =>
      if r.status_code = 200 then
        match r.choicesContent with
        | some c => c
        | none => "Error calling API: " ++ r.parse_error
      else
        "Error: " ++ toString r.status_code ++ " - " ++ r.text
  | .exn msg => "Error calling API: " ++ msg

/-- HTTP success statuses (2xx). The code only special-cases 200. -/
def successStatus (s : Nat) : Prop := 200 ≤ s ∧ s < 300

instance (s : Nat) : Decidable (successStatus s) := by
  unfold successStatus; infer_instance

/-! ## Context assembly (src/app.py lines 97-105) -/

/-- `get_rag_context` (src/app.py lines 97-105): read every `content` of
`rag_knowledge` in insertion order, return `""` on an empty table, else the
contents joined by a blank line (`"\n\n"`), truncated to the first 10000
code points when longer. Pure: it only reads the store. -/
def get_rag_context (db : DB) : String :=
  if db.rag_knowledge = [] then ""
  else
    let context := String.intercalate "\n\n" (db.rag_knowledge.map (·.content))
    if context.length > 10000 then strTake context 10000 else context

/-! ## Feedback prompt (src/app.py lines 108-136) -/

/-- The f-string of `get_ai_feedback` (src/app.py lines 111-134), whitespace
included (each line of the triple-quoted literal carries the 4-space source
indentation). -/
def feedback_prompt (f : SubmitForm) (rag_context : String) : String :=
  "\n    أنت مستشار ذكي لتقييم وتحسين المبادرات المقدمة من الموظفين في جهة حكومية. \n    \n    فيما يلي معلومات عن مبادرات سابقة للاستفادة منها:\n    "
  ++ rag_context
  ++ "\n    \n    فيما يلي تفاصيل المبادرة الجديدة المقدمة:\n    \n    عنوان المبادرة: "
  ++ f.title
  ++ "\n    القسم: "
  ++ f.department
  ++ "\n    الوصف: "
  ++ f.description
  ++ "\n    الأهداف: "
  ++ f.goals
  ++ "\n    المتطلبات: "
  ++ f.requirements
  ++ "\n    الميزانية المقترحة: "
  ++ toString f.budget
  ++ " ريال\n    \n    قم بتقديم تقييم وملاحظات على المبادرة متضمناً:\n    1. تقييم عام للمبادرة (قوتها، وضوحها، توافقها مع أهداف المؤسسات الحكومية)\n    2. اقتراحات لتحسين المبادرة\n    3. أفكار إضافية يمكن دمجها مع المبادرة\n    4. تقييم واقعية الميزانية المقترحة\n    5. تصنيف المبادرة (ابتكارية، تحسينية، توفيرية) \n    \n    قدم إجابتك باللغة العربية بتنسيق واضح ومرتب.\n    "

/-- `get_ai_feedback` (src/app.py lines 108-136): assemble the context from
the store, render the prompt, make the external call. `api` is the live
transport, `fun prompt => call_deepseek_api (outcome of POSTing prompt)`. -/
def get_ai_feedback (api : String → String) (f : SubmitForm) (db : DB) : String :=
  api (feedback_prompt f (get_rag_context db))

/-! ## Writes (src/app.py lines 139-188) -/

/-- The f-string `content` of `add_to_rag_knowledge` (src/app.py lines
141-148), whitespace included. -/
def rag_content (f : SubmitForm) : String :=
  "\n    عنوان المبادرة: "
  ++ f.title
  ++ "\n    القسم: "
  ++ f.department
  ++ "\n    الوصف: "
  ++ f.description
  ++ "\n    الأهداف: "
  ++ f.goals
  ++ "\n    المتطلبات: "
  ++ f.requirements
  ++ "\n    الميزانية: "
  ++ toString f.budget
  ++ " ريال\n    "

/-- `add_to_rag_knowledge` (src/app.py lines 139-154): insert one row into
`rag_knowledge` with the rendered content and the department as category. -/
def add_to_rag_knowledge (now : Nat) (f : SubmitForm) (db : DB) : DB :=
  { db with rag_knowledge := db.rag_knowledge ++
      [{ id := db.rag_knowledge.length + 1
         content := rag_content f
         category := f.department
         created_at := now }] }

/-- `save_initiative` (src/app.py lines 157-176): insert one row into
`initiatives`; the omitted columns take their schema defaults
(`status = 'pending'`, `admin_feedback = NULL`, both timestamps now).
Returns `cursor.lastrowid`. -/
def save_initiative (now : Nat) (f : SubmitForm) (ai_feedback : String) (db : DB) :
    Nat × DB :=
  let new_id := db.initiatives.length + 1
  (new_id,
   { db with initiatives := db.initiatives ++
       [{ id := new_id
          employee_id := f.employee_id
          employee_name := f.employee_name
          department := f.department
          title := f.title
          description := f.description
          goals := f.goals
          requirements := f.requirements
          budget := f.budget
          status := "pending"
          ai_feedback := ai_feedback
          admin_feedback := ""
          created_at := now
          updated_at := now }] })

/-- `save_document_analysis` (src/app.py lines 179-188). -/
def save_document_analysis (now : Nat) (file_name analysis_type analysis_result : String)
    (employee_id : Option String) (db : DB) : Nat × DB :=
  let new_id := db.document_analysis.length + 1
  (new_id,
   { db with document_analysis := db.document_analysis ++
       [{ id := new_id
          file_name := file_name
          analysis_type := analysis_type
          analysis_result := analysis_result
          employee_id := employee_id
          created_at := now }] })

/-- `update_initiative_status` (src/app.py lines 209-215): the SQL
`UPDATE initiatives SET status = ?, admin_feedback = ?,
updated_at = CURRENT_TIMESTAMP WHERE id = ?`. Rows whose `id` differs are
untouched; if no row matches, the statement affects nothing — the function
has no error path and raises nothing. -/
def update_initiative_status (now : Nat) (initiative_id : Nat)
    (status : String) (admin_feedback : String) (db : DB) : DB :=
  { db with initiatives := db.initiatives.map fun r =>
      if r.id = initiative_id then
        { r with status := status, admin_feedback := admin_feedback, updated_at := now }
      else r }

/-! ## Submission page (src/app.py lines 282-337) -/

/-- What `submit_initiative_page` reports back (src/app.py lines 306-337):
either the validation `st.error` message, or success with the new row id and
the feedback text displayed to the user. -/
inductive SubmitOutcome where
  | validationError (msg : String)
  | submitted (id : Nat) (ai_feedback : String)
  deriving Repr, DecidableEq

/-- The check on src/app.py line 307:
`not employee_id or not employee_name or not title or not description or
not goals` (Python string truthiness: missing means empty). `department`
comes from a select box and `requirements`/`budget` are not validated. -/
def requiredFieldMissing (f : SubmitForm) : Bool :=
  f.employee_id == "" || f.employee_name == "" || f.title == ""
    || f.description == "" || f.goals == ""

/-- The submit branch of `submit_initiative_page` (src/app.py lines 306-333):
on a validation failure show the fixed error message and write nothing;
otherwise get the AI feedback (context assembled first, from the current
store), save the initiative, then append the context entry. -/
def submit_initiative (api : String → String) (now : Nat) (f : SubmitForm) (db : DB) :
    SubmitOutcome × DB :=
  if requiredFieldMissing f then
    (.validationError "يرجى تعبئة جميع الحقول الإلزامية", db)
  else
    let ai_feedback := get_ai_feedback api f db
    let r := save_initiative now f ai_feedback db
    let db2 := add_to_rag_knowledge now f r.2
    (.submitted r.1 ai_feedback, db2)

/-! ## Review page filtering (src/app.py lines 545-584) -/

/-- The WHERE clause built by `review_initiatives_page` (src/app.py lines
566-579): `status = ?` only when the status filter is not the sentinel
`"الكل"` ("All"), `department = ?` only when the department filter is not the
sentinel, and `budget <= ?` always. -/
def matchesReviewFilters (status_filter department_filter : String)
    (budget_filter : Int) (r : Initiative) : Bool :=
  (status_filter == "الكل" || r.status == status_filter)
    && (department_filter == "الكل" || r.department == department_filter)
    && decide (r.budget ≤ budget_filter)

/-- `ORDER BY created_at DESC`: a row sorts before another when its creation
instant is at least as late. -/
def newerFirst (a b : Initiative) : Prop := b.created_at ≤ a.created_at

instance : DecidableRel newerFirst := fun a b =>
  Nat.decLe b.created_at a.created_at

instance : IsTotal Initiative newerFirst :=
  ⟨fun a b => Nat.le_total b.created_at a.created_at⟩

instance : IsTrans Initiative newerFirst :=
  ⟨fun _ _ _ h1 h2 => Nat.le_trans h2 h1⟩

/-- The query of `review_initiatives_page` (src/app.py lines 566-584):
`SELECT * FROM initiatives WHERE <filters> ORDER BY created_at DESC`,
modelled as filtering the table then sorting newest first. -/
def review_initiatives_query (status_filter department_filter : String)
    (budget_filter : Int) (db : DB) : List Initiative :=
  List.insertionSort newerFirst
    (db.initiatives.filter (matchesReviewFilters status_filter department_filter budget_filter))

/-! ## Document analysis page (src/app.py lines 385-533) -/

/-- The six analysis kinds offered by the select box on src/app.py
lines 409-413. -/
inductive AnalysisType where
  | summarize
  | improveContent
  | extractKeyPoints
  | strengthsWeaknesses
  | toActionPlan
  | suggestImprovements
  deriving Repr, DecidableEq

/-- The Arabic label of each analysis kind, as listed in the select box
(src/app.py lines 411-412). -/
def analysisTypeLabel : AnalysisType → String
  | .summarize => "تلخيص المستند"
  | .improveContent => "تحسين المحتوى"
  | .extractKeyPoints => "استخراج النقاط الرئيسية"
  | .strengthsWeaknesses => "تحليل نقاط القوة والضعف"
  | .toActionPlan => "تحويل إلى خطة عمل"
  | .suggestImprovements => "اقتراح تحسينات"

/-- Text preceding the embedded document in each prompt template of the
`if`/`elif` chain on src/app.py lines 423-501 (line structure kept, source
indentation of the triple-quoted literals normalized away). -/
def analysis_prompt_head : AnalysisType → String
  | .summarize =>
      "\nقم بتلخيص المستند التالي بشكل دقيق مع الحفاظ على أهم المعلومات والأفكار الرئيسية.\n\nالمستند:\n"
  | .improveContent =>
      "\nقم بتحسين صياغة وتنظيم المحتوى التالي مع الحفاظ على المعنى الأصلي.\n\nالمحتوى:\n"
  | .extractKeyPoints =>
      "\nاستخرج النقاط والمعلومات الرئيسية من المستند التالي.\n\nالمستند:\n"
  | .strengthsWeaknesses =>
      "\nقم بتحليل نقاط القوة والضعف في المستند أو المشروع المذكور في النص التالي.\n\nالمستند:\n"
  | .toActionPlan =>
      "\nقم بتحويل المحتوى التالي إلى خطة عمل تنفيذية منظمة.\n\nالمحتوى:\n"
  | .suggestImprovements =>
      "\nقم بتحليل المستند التالي واقتراح تحسينات وأفكار لتطويره.\n\nالمستند:\n"

/-- Text following the embedded document (and wrapping the optional custom
instructions) in each prompt template of src/app.py lines 423-501. The
summarize template carries the stray `#`-comment that sits inside the
f-string on line 428. -/
def analysis_prompt_tail (atype : AnalysisType) (custom_instructions : String) : String :=
  match atype with
  | .summarize =>
      "  # Limiting text to avoid too large prompts\n\nتعليمات إضافية: "
      ++ custom_instructions
      ++ "\n\nقدم ملخصاً شاملاً ومنظماً باللغة العربية.\n"
  | .improveContent =>
      "\n\nتعليمات إضافية: "
      ++ custom_instructions
      ++ "\n\nقدم النسخة المحسنة مع التركيز على الوضوح والتنظيم الجيد للأفكار.\n"
  | .extractKeyPoints =>
      "\n\nتعليمات إضافية: "
      ++ custom_instructions
      ++ "\n\nقدم قائمة منظمة بالنقاط الرئيسية والمعلومات المهمة.\n"
  | .strengthsWeaknesses =>
      "\n\nتعليمات إضافية: "
      ++ custom_instructions
      ++ "\n\nقدم تحليلاً منظماً يتضمن:\n1. نقاط القوة الرئيسية\n2. نقاط الضعف أو المجالات التي تحتاج إلى تحسين\n3. الفرص المحتملة\n4. التحديات المتوقعة\n"
  | .toActionPlan =>
      "\n\nتعليمات إضافية: "
      ++ custom_instructions
      ++ "\n\nقدم خطة عمل تتضمن:\n1. الأهداف الرئيسية\n2. الخطوات التنفيذية\n3. الجدول الزمني المقترح\n4. الموارد المطلوبة\n5. مؤشرات قياس النجاح\n"
  | .suggestImprovements =>
      "\n\nتعليمات إضافية: "
      ++ custom_instructions
      ++ "\n\nقدم اقتراحات محددة لتحسين:\n1. المحتوى والأفكار\n2. التنظيم والهيكل\n3. الصياغة واللغة\n4. الفعالية العامة للمستند\n"

/-- The prompt built for the chosen analysis kind (src/app.py lines 422-501):
each branch embeds `text[:15000]` and the custom instructions into its own
template. -/
def analysis_prompt (atype : AnalysisType) (text custom_instructions : String) : String :=
  analysis_prompt_head atype ++ strTake text 15000
    ++ analysis_prompt_tail atype custom_instructions

/-- The analyze-button branch of `analyze_documents_page` (src/app.py lines
420-513): build the template's prompt with the document text capped at 15000
code points, call the API, and persist a `document_analysis` row exactly when
an employee id was supplied (Python truthiness: a non-empty string). Returns
the displayed analysis result together with the resulting store. -/
def analyze_document (api : String → String) (now : Nat) (file_name : String)
    (text : String) (atype : AnalysisType) (custom_instructions : String)
    (employee_id : String) (db : DB) : String × DB :=
  let prompt := analysis_prompt atype text custom_instructions
  let analysis_result := api prompt
  if employee_id ≠ "" then
    (analysis_result,
     (save_document_analysis now file_name (analysisTypeLabel atype) analysis_result
        (some employee_id) db).2)
  else
    (analysis_result, db)

/-! ## Seed data (src/app.py lines 762-788) -/

/-- The three rows inserted by `add_seed_data` (src/app.py lines 767-780),
contents verbatim. -/
def seed_rag_entries (now : Nat) : List RagEntry :=
  [{ id := 1
     content := "عنوان المبادرة: تطبيق نظام التوقيع الإلكتروني\nالقسم: تقنية المعلومات\nالوصف: إنشاء نظام للتوقيع الإلكتروني للمعاملات الداخلية لتقليل استهلاك الورق وتسريع العمليات\nالأهداف: تقليل البصمة الكربونية، تسريع إنجاز المعاملات، توفير التكاليف\nالمتطلبات: برمجيات تشفير، أجهزة خوادم، تدريب الموظفين\nالميزانية: 150000 ريال"
     category := "تقنية المعلومات"
     created_at := now },
   { id := 2
     content := "عنوان المبادرة: برنامج تحفيز الموظفين\nالقسم: الموارد البشرية\nالوصف: برنامج شامل لتحفيز الموظفين من خلال نظام نقاط ومكافآت للإنجازات المتميزة\nالأهداف: زيادة الإنتاجية، تعزيز الانتماء للمؤسسة، تقليل معدل دوران الموظفين\nالمتطلبات: نظام إلكتروني لتتبع النقاط، ميزانية للمكافآت، فريق إدارة البرنامج\nالميزانية: 200000 ريال"
     category := "الموارد البشرية"
     created_at := now },
   { id := 3
     content := "عنوان المبادرة: ترشيد استهلاك الطاقة\nالقسم: الخدمات\nالوصف: تركيب أنظمة ذكية لترشيد استهلاك الكهرباء والماء في مباني المؤسسة\nالأهداف: خفض فواتير الطاقة بنسبة 30%، تقليل البصمة البيئية، الالتزام بمعايير الاستدامة\nالمتطلبات: أجهزة استشعار ذكية، أنظمة تحكم مركزية، حملة توعية للموظفين\nالميزانية: 350000 ريال"
     category := "الخدمات"
     created_at := now }]

/-- `add_seed_data` (src/app.py lines 762-788): when
`SELECT COUNT(*) FROM rag_knowledge` is zero, insert the three seed rows;
otherwise do nothing. Run once at startup by `main` (src/app.py line 793). -/
def add_seed_data (now : Nat) (db : DB) : DB :=
  if db.rag_knowledge.length = 0 then
    { db with rag_knowledge := seed_rag_entries now }
  else db

/-! ## Helper lemmas and test fixtures -/

theorem strTake_length (s : String) (n : Nat) :
    (strTake s n).length = min n s.length := by
  rw [strTake, String.length_mk, List.length_take]; rfl

theorem strTake_length_le (s : String) (n : Nat) : (strTake s n).length ≤ n := by
  rw [strTake_length]; omega

theorem requiredFieldMissing_eq_false {f : SubmitForm}
    (h : f.employee_id ≠ "" ∧ f.employee_name ≠ "" ∧ f.title ≠ ""
      ∧ f.description ≠ "" ∧ f.goals ≠ "") :
    requiredFieldMissing f = false := by
  obtain ⟨h1, h2, h3, h4, h5⟩ := h
  simp [requiredFieldMissing, h1, h2, h3, h4, h5]

/-- A stand-in for the live transport in concrete evaluations: every prompt
gets the reply `"ok"`. -/
def stubApi : String → String := fun _ => "ok"

/-- An initially empty store. -/
def emptyDB : DB := ⟨[], [], []⟩

/-- A fully filled submission form. -/
def okForm : SubmitForm :=
  { employee_id := "E1"
    employee_name := "Ali"
    department := "تقنية المعلومات"
    title := "E-sign"
    budget := 1000
    description := "desc"
    goals := "goals"
    requirements := "reqs" }

/-- `okForm` with the employee id blanked out. -/
def formMissingId : SubmitForm := { okForm with employee_id := "" }

/-- `okForm` with the title blanked out. -/
def formMissingTitle : SubmitForm := { okForm with title := "" }

/-! ## Claim C4: context assembly -/

/-- Claim C4: `get_rag_context` is a pure read of the store. It returns `""`
on an empty `rag_knowledge` table; on a non-empty table it returns the
entries' contents joined with a blank-line separator in insertion order,
truncated to exactly the leading 10000 characters whenever the joined blob is
longer; the result never exceeds 10000 characters. -/
theorem claim_C4_rag_context (db : DB) :
    (db.rag_knowledge = [] → get_rag_context db = "") ∧
    (db.rag_knowledge ≠ [] →
      (String.intercalate "\n\n" (db.rag_knowledge.map (·.content))).length ≤ 10000 →
      get_rag_context db = String.intercalate "\n\n" (db.rag_knowledge.map (·.content))) ∧
    (db.rag_knowledge ≠ [] →
      (String.intercalate "\n\n" (db.rag_knowledge.map (·.content))).length > 10000 →
      get_rag_context db
          = strTake (String.intercalate "\n\n" (db.rag_knowledge.map (·.content))) 10000 ∧
        (get_rag_context db).length = 10000) ∧
    (get_rag_context db).length ≤ 10000 := by
  refine ⟨fun h => by simp [get_rag_context, h], ?_, ?_, ?_⟩
  · intro hne hle
    have hnot : ¬ (String.intercalate "\n\n" (db.rag_knowledge.map (·.content))).length > 10000 := by
      omega
    simp [get_rag_context, hne, hnot]
  · intro hne hgt
    have he : get_rag_context db
        = strTake (String.intercalate "\n\n" (db.rag_knowledge.map (·.content))) 10000 := by
      simp [get_rag_context, hne, hgt]
    refine ⟨he, ?_⟩
    rw [he, strTake_length]
    omega
  · by_cases hne : db.rag_knowledge = []
    · simp [get_rag_context, hne]
    · by_cases hgt : (String.intercalate "\n\n" (db.rag_knowledge.map (·.content))).length > 10000
      · have : get_rag_context db
            = strTake (String.intercalate "\n\n" (db.rag_knowledge.map (·.content))) 10000 := by
          simp [get_rag_context, hne, hgt]
        rw [this]; exact strTake_length_le _ _
      · have : get_rag_context db
            = String.intercalate "\n\n" (db.rag_knowledge.map (·.content)) := by
          simp [get_rag_context, hne, hgt]
        rw [this]; omega

/-- A 10001-character string, to exercise the truncation branch. -/
def longContent : String := ⟨List.replicate 10001 'a'⟩

/-- A store whose single context entry is longer than the 10000-character
threshold. -/
def longRagDB : DB := ⟨[], [⟨1, longContent, "x", 0⟩], []⟩

/-- Concrete instances of claim C4: the empty store yields `""`, and a store
whose joined contents run to 10001 characters yields exactly 10000. -/
theorem claim_C4_rag_context_witness :
    get_rag_context emptyDB = "" ∧ (get_rag_context longRagDB).length = 10000 := by
  constructor
  · exact (claim_C4_rag_context emptyDB).1 rfl
  · refine ((claim_C4_rag_context longRagDB).2.2.1 (by simp [longRagDB]) ?_).2
    have : String.intercalate "\n\n" (longRagDB.rag_knowledge.map (·.content)) = longContent := by
      simp [longRagDB, String.intercalate, String.intercalate.go]
    rw [this]
    have : longContent.length = 10001 := by
      rw [longContent, String.length_mk, List.length_replicate]
    omega

/-! ## Claim C7: external call error channel -/

/-- Claim C7: `call_deepseek_api` never raises to its caller (it is a total
function into `String`). On a 200 response whose body has the expected shape
it returns `choices[0].message.content`; on any non-success status code, and
on any transport exception, it returns a string that begins with the marker
`"Error"` and embeds the status plus response text, or the exception detail,
on the same string channel as success. -/
theorem claim_C7_api_error_channel (o : HttpOutcome) :
    (∀ r c, o = .response r → r.status_code = 200 → r.choicesContent = some c →
      call_deepseek_api o = c) ∧
    (∀ r, o = .response r → ¬ successStatus r.status_code →
      call_deepseek_api o = "Error: " ++ toString r.status_code ++ " - " ++ r.text ∧
      ∃ t, call_deepseek_api o = "Error" ++ t) ∧
    (∀ m, o = .exn m →
      call_deepseek_api o = "Error calling API: " ++ m ∧
      ∃ t, call_deepseek_api o = "Error" ++ t) := by
  refine ⟨?_, ?_, ?_⟩
  · rintro r c rfl h200 hc
    simp [call_deepseek_api, h200, hc]
  · rintro r rfl hfail
    have hne : r.status_code ≠ 200 := by
      intro h; exact hfail (by rw [h]; exact ⟨by omega, by omega⟩)
    have he : call_deepseek_api (.response r)
        = "Error: " ++ toString r.status_code ++ " - " ++ r.text := by
      simp [call_deepseek_api, hne]
    refine ⟨he, ": " ++ toString r.status_code ++ " - " ++ r.text, ?_⟩
    rw [he, show ("Error: " : String) = "Error" ++ ": " from rfl,
      String.append_assoc "Error" ": " (toString r.status_code),
      String.append_assoc "Error" (": " ++ toString r.status_code) " - ",
      String.append_assoc "Error" (": " ++ toString r.status_code ++ " - ") r.text]
  · rintro m rfl
    refine ⟨rfl, " calling API: " ++ m, ?_⟩
    show "Error calling API: " ++ m = "Error" ++ (" calling API: " ++ m)
    rw [show ("Error calling API: " : String) = "Error" ++ " calling API: " from rfl]
    rw [String.append_assoc]

/-- Concrete instances of claim C7: a well-formed 200 response yields its
content, a 404 yields the error marker string, and a transport exception
yields the error marker string. -/
theorem claim_C7_api_error_channel_witness :
    call_deepseek_api (.response ⟨200, "", some "ok", ""⟩) = "ok" ∧
    call_deepseek_api (.response ⟨404, "Not Found", none, ""⟩) = "Error: 404 - Not Found" ∧
    call_deepseek_api (.exn "timeout") = "Error calling API: timeout" := by
  refine ⟨?_, ?_, ?_⟩
  · exact (claim_C7_api_error_channel (.response ⟨200, "", some "ok", ""⟩)).1 _ "ok" rfl rfl rfl
  · exact (((claim_C7_api_error_channel
      (.response ⟨404, "Not Found", none, ""⟩)).2.1 _ rfl (by decide)).1).trans (by decide)
  · exact ((claim_C7_api_error_channel (.exn "timeout")).2.2 _ rfl).1

/-! ## Claim C10: startup seeding -/

/-- Claim C10: `add_seed_data` inserts exactly the three fixed context
entries when the context corpus is empty and leaves the store unchanged when
the corpus already has an entry; it is idempotent, never touches the other
two tables (so the seeded entries correspond to no initiative record), and
afterwards the corpus is never empty. -/
theorem claim_C10_seed_data (now now2 : Nat) (db : DB) :
    (db.rag_knowledge = [] →
      add_seed_data now db = { db with rag_knowledge := seed_rag_entries now } ∧
      (add_seed_data now db).rag_knowledge.length = 3) ∧
    (db.rag_knowledge ≠ [] → add_seed_data now db = db) ∧
    (add_seed_data now db).rag_knowledge ≠ [] ∧
    add_seed_data now2 (add_seed_data now db) = add_seed_data now db ∧
    (add_seed_data now db).initiatives = db.initiatives ∧
    (add_seed_data now db).document_analysis = db.document_analysis := by
  by_cases h : db.rag_knowledge = []
  · have h0 : db.rag_knowledge.length = 0 := by rw [h]; rfl
    have he : add_seed_data now db = { db with rag_knowledge := seed_rag_entries now } := by
      simp [add_seed_data, h0]
    refine ⟨fun _ => ⟨he, by rw [he]; rfl⟩, fun hne => absurd h hne, ?_, ?_, ?_, ?_⟩
    · rw [he]; simp [seed_rag_entries]
    · rw [he]; simp [add_seed_data, seed_rag_entries]
    · rw [he]
    · rw [he]
  · have h0 : db.rag_knowledge.length ≠ 0 := by
      intro hc; exact h (List.length_eq_zero.mp hc)
    have he : add_seed_data now db = db := by simp [add_seed_data, h0]
    have he2 : add_seed_data now2 db = db := by simp [add_seed_data, h0]
    refine ⟨fun hc => absurd hc h, fun _ => he, ?_, ?_, ?_, ?_⟩
    · rw [he]; exact h
    · rw [he, he2]
    · rw [he]
    · rw [he]

/-- A store whose corpus already holds one entry. -/
def oneRagDB : DB := ⟨[], [⟨1, "c", "k", 0⟩], []⟩

/-- Concrete instances of claim C10: seeding the empty store yields the three
fixed entries and is idempotent; seeding a store with a non-empty corpus
changes nothing. -/
theorem claim_C10_seed_data_witness :
    add_seed_data 7 emptyDB = { emptyDB with rag_knowledge := seed_rag_entries 7 } ∧
    (add_seed_data 7 emptyDB).rag_knowledge.length = 3 ∧
    add_seed_data 9 (add_seed_data 7 emptyDB) = add_seed_data 7 emptyDB ∧
    add_seed_data 9 oneRagDB = oneRagDB := by
  refine ⟨((claim_C10_seed_data 7 9 emptyDB).1 rfl).1,
    ((claim_C10_seed_data 7 9 emptyDB).1 rfl).2,
    (claim_C10_seed_data 7 9 emptyDB).2.2.2.1,
    (claim_C10_seed_data 9 0 oneRagDB).2.1 (by decide)⟩

/-! ## Claim C1: submission validation -/

/-- Counterexample to claim C1 as stated: two submissions missing different
required fields (one has only the employee id blank, the other only the
title) produce one and the same outcome — the fixed message
`"يرجى تعبئة جميع الحقول الإلزامية"` ("please fill in all mandatory fields")
with an unchanged store — so the validation error cannot be listing the
missing fields: it carries no information about which fields were blank. -/
theorem claim_C1_counterexample :
    submit_initiative stubApi 0 formMissingId emptyDB
        = submit_initiative stubApi 0 formMissingTitle emptyDB ∧
    submit_initiative stubApi 0 formMissingId emptyDB
        = (.validationError "يرجى تعبئة جميع الحقول الإلزامية", emptyDB) ∧
    formMissingId.employee_id = "" ∧ formMissingId.title ≠ "" ∧
    formMissingTitle.title = "" ∧ formMissingTitle.employee_id ≠ "" := by
  refine ⟨?_, ?_, rfl, by decide, rfl, by decide⟩ <;> decide

/-- Claim C1 (amended): whenever any of the five required fields (employee
id, employee name, title, description, goals) is empty, the submission fails
with the validation error carrying the fixed generic message — it does not
list the missing fields — and the store is returned unchanged: no initiative
row and no context entry is created. -/
theorem claim_C1_validation_aborts (api : String → String) (now : Nat)
    (f : SubmitForm) (db : DB)
    (h : f.employee_id = "" ∨ f.employee_name = "" ∨ f.title = ""
      ∨ f.description = "" ∨ f.goals = "") :
    submit_initiative api now f db
      = (.validationError "يرجى تعبئة جميع الحقول الإلزامية", db) := by
  have hm : requiredFieldMissing f = true := by
    rcases h with h | h | h | h | h <;> simp [requiredFieldMissing, h]
  simp [submit_initiative, hm]

/-- Concrete instance of claim C1 (amended): the form with a blank employee
id is rejected with the fixed message and the store is untouched. -/
theorem claim_C1_validation_aborts_witness :
    submit_initiative stubApi 3 formMissingId oneRagDB
      = (.validationError "يرجى تعبئة جميع الحقول الإلزامية", oneRagDB) :=
  claim_C1_validation_aborts stubApi 3 formMissingId oneRagDB (Or.inl (by decide))

/-! ## Claim C2: successful submission creates one initiative and one
context entry -/

/-- Claim C2: when all five required fields are non-empty, `submit_initiative`
appends exactly one row to `initiatives` — with status `"pending"` and
`ai_feedback` equal to the feedback requester's return value — and exactly one
row to `rag_knowledge`, whose category is the initiative's department and
whose content is the fixed rendering of the submitted field values; the
document-analysis table is untouched and the new row's id is reported. -/
theorem claim_C2_submit_success (api : String → String) (now : Nat)
    (f : SubmitForm) (db : DB)
    (h : f.employee_id ≠ "" ∧ f.employee_name ≠ "" ∧ f.title ≠ ""
      ∧ f.description ≠ "" ∧ f.goals ≠ "") :
    (submit_initiative api now f db).2.initiatives
        = db.initiatives ++
          [{ id := db.initiatives.length + 1
             employee_id := f.employee_id
             employee_name := f.employee_name
             department := f.department
             title := f.title
             description := f.description
             goals := f.goals
             requirements := f.requirements
             budget := f.budget
             status := "pending"
             ai_feedback := get_ai_feedback api f db
             admin_feedback := ""
             created_at := now
             updated_at := now }] ∧
    (submit_initiative api now f db).2.rag_knowledge
        = db.rag_knowledge ++
          [{ id := db.rag_knowledge.length + 1
             content := rag_content f
             category := f.department
             created_at := now }] ∧
    (submit_initiative api now f db).2.document_analysis = db.document_analysis ∧
    (submit_initiative api now f db).1
        = .submitted (db.initiatives.length + 1) (get_ai_feedback api f db) := by
  have hm : requiredFieldMissing f = false := requiredFieldMissing_eq_false h
  refine ⟨?_, ?_, ?_, ?_⟩ <;>
    simp [submit_initiative, hm, save_initiative, add_to_rag_knowledge]

/-- Concrete instance of claim C2: submitting `okForm` against a store with
one existing initiative appends exactly one initiative row (status pending,
feedback `"ok"` from the stubbed transport) and one matching context entry. -/
theorem claim_C2_submit_success_witness :
    (submit_initiative stubApi 5 okForm emptyDB).2.initiatives
        = [{ id := 1
             employee_id := "E1"
             employee_name := "Ali"
             department := "تقنية المعلومات"
             title := "E-sign"
             description := "desc"
             goals := "goals"
             requirements := "reqs"
             budget := 1000
             status := "pending"
             ai_feedback := get_ai_feedback stubApi okForm emptyDB
             admin_feedback := ""
             created_at := 5
             updated_at := 5 }] ∧
    (submit_initiative stubApi 5 okForm emptyDB).2.rag_knowledge
        = [{ id := 1
             content := rag_content okForm
             category := "تقنية المعلومات"
             created_at := 5 }] ∧
    (submit_initiative stubApi 5 okForm emptyDB).1
        = .submitted 1 (get_ai_feedback stubApi okForm emptyDB) := by
  have h := claim_C2_submit_success stubApi 5 okForm emptyDB
    (by refine ⟨?_, ?_, ?_, ?_, ?_⟩ <;> decide)
  exact ⟨h.1, h.2.1, h.2.2.2⟩

/-! ## Claim C5: feedback is generated from the pre-submission corpus -/

/-- Claim C5: on a successful submission the stored (and reported) AI
feedback is the external call applied to the prompt assembled from
`get_rag_context` of the store as it stood before the submission; the
submission's own context entry is appended to the corpus only after the
initiative row — carrying that feedback — is already persisted, so the entry
is absent from the corpus its own prompt was assembled from. -/
theorem claim_C5_feedback_precedes_context_entry (api : String → String)
    (now : Nat) (f : SubmitForm) (db : DB)
    (h : f.employee_id ≠ "" ∧ f.employee_name ≠ "" ∧ f.title ≠ ""
      ∧ f.description ≠ "" ∧ f.goals ≠ "") :
    ∃ rec : Initiative,
      (submit_initiative api now f db).2.initiatives = db.initiatives ++ [rec] ∧
      rec.ai_feedback = api (feedback_prompt f (get_rag_context db)) ∧
      (submit_initiative api now f db).1
          = .submitted rec.id (api (feedback_prompt f (get_rag_context db))) ∧
      (submit_initiative api now f db).2.rag_knowledge
          = db.rag_knowledge ++
            [{ id := db.rag_knowledge.length + 1
               content := rag_content f
               category := f.department
               created_at := now }] := by
  have hm : requiredFieldMissing f = false := requiredFieldMissing_eq_false h
  refine ⟨{ id := db.initiatives.length + 1
            employee_id := f.employee_id
            employee_name := f.employee_name
            department := f.department
            title := f.title
            description := f.description
            goals := f.goals
            requirements := f.requirements
            budget := f.budget
            status := "pending"
            ai_feedback := api (feedback_prompt f (get_rag_context db))
            admin_feedback := ""
            created_at := now
            updated_at := now }, ?_, rfl, ?_, ?_⟩ <;>
    simp [submit_initiative, hm, save_initiative, add_to_rag_knowledge,
      get_ai_feedback]

/-- Concrete instance of claim C5: submitting against the seeded corpus
stores feedback computed from the three seed entries alone, and the corpus
afterwards holds the new entry in fourth position. -/
theorem claim_C5_feedback_precedes_context_entry_witness :
    ∃ rec : Initiative,
      (submit_initiative stubApi 5 okForm (add_seed_data 0 emptyDB)).2.initiatives
          = [] ++ [rec] ∧
      rec.ai_feedback
          = stubApi (feedback_prompt okForm (get_rag_context (add_seed_data 0 emptyDB))) ∧
      (submit_initiative stubApi 5 okForm (add_seed_data 0 emptyDB)).1
          = .submitted rec.id
              (stubApi (feedback_prompt okForm (get_rag_context (add_seed_data 0 emptyDB)))) ∧
      (submit_initiative stubApi 5 okForm (add_seed_data 0 emptyDB)).2.rag_knowledge
          = (add_seed_data 0 emptyDB).rag_knowledge ++
            [{ id := (add_seed_data 0 emptyDB).rag_knowledge.length + 1
               content := rag_content okForm
               category := okForm.department
               created_at := 5 }] :=
  claim_C5_feedback_precedes_context_entry stubApi 5 okForm (add_seed_data 0 emptyDB)
    (by refine ⟨?_, ?_, ?_, ?_, ?_⟩ <;> decide)

/-! ## Claim C3: status update -/

/-- A store holding a single initiative with id 1. -/
def dbOneInitiative : DB :=
  ⟨[{ id := 1
      employee_id := "E1"
      employee_name := "Ali"
      department := "تقنية المعلومات"
      title := "T"
      description := "D"
      goals := "G"
      requirements := "R"
      budget := 100
      status := "pending"
      ai_feedback := "fb"
      admin_feedback := ""
      created_at := 10
      updated_at := 10 }], [], []⟩

/-- Counterexample to claim C3 as stated: id 7 is absent from
`dbOneInitiative` (its only row has id 1), yet `update_initiative_status`
returns normally with the store unchanged — the SQL UPDATE simply matches
zero rows and the function has no error path whatsoever — rather than
failing with a `NotFoundError`. -/
theorem claim_C3_counterexample :
    update_initiative_status 99 7 "approved" "x" dbOneInitiative = dbOneInitiative ∧
    dbOneInitiative.initiatives.map Initiative.id = [1] := by
  constructor <;> decide

/-- Claim C3 (amended): `update_initiative_status` overwrites in place the
status and reviewer feedback of every row whose id matches (keeping no
history) and sets that row's update timestamp to the current instant, leaving
all other rows as they were; when the id is absent from the store the call is
a silent no-op — the store is returned unchanged and no error of any kind is
raised (there is no `NotFoundError` path in the code). -/
theorem claim_C3_update_status (now iid : Nat) (s fb : String) (db : DB) :
    (update_initiative_status now iid s fb db).initiatives
        = db.initiatives.map (fun r =>
            if r.id = iid then
              { r with status := s, admin_feedback := fb, updated_at := now }
            else r) ∧
    ((∀ r ∈ db.initiatives, r.id ≠ iid) →
      update_initiative_status now iid s fb db = db) := by
  refine ⟨rfl, fun habs => ?_⟩
  have h1 : db.initiatives.map (fun r =>
      if r.id = iid then
        { r with status := s, admin_feedback := fb, updated_at := now }
      else r) = db.initiatives := by
    have := List.map_congr_left (l := db.initiatives)
      (f := fun r : Initiative =>
        if r.id = iid then
          { r with status := s, admin_feedback := fb, updated_at := now }
        else r)
      (g := id) (fun r hr => by simp [habs r hr])
    simpa using this
  show { db with initiatives := _ } = db
  rw [h1]

/-- Concrete instances of claim C3 (amended): updating id 1 overwrites the
row's status, reviewer feedback and update timestamp in place; updating the
absent id 7 leaves the store unchanged. -/
theorem claim_C3_update_status_witness :
    (update_initiative_status 20 1 "approved" "looks good" dbOneInitiative).initiatives
        = dbOneInitiative.initiatives.map (fun r =>
            if r.id = 1 then
              { r with status := "approved", admin_feedback := "looks good",
                       updated_at := 20 }
            else r) ∧
    update_initiative_status 20 7 "approved" "looks good" dbOneInitiative
        = dbOneInitiative := by
  refine ⟨(claim_C3_update_status 20 1 "approved" "looks good" dbOneInitiative).1,
    (claim_C3_update_status 20 7 "approved" "looks good" dbOneInitiative).2 ?_⟩
  decide

/-! ## Claim C9: the status update is framed -/

/-- Claim C9: `update_initiative_status` never touches the context-entry or
document-analysis tables, preserves the number and order of initiative rows,
and for every row preserves id, employee id, employee name, department,
title, description, goals, requirements, budget, generated feedback and
creation timestamp; a row whose id differs from the targeted one is preserved
in full, status, reviewer feedback and update timestamp included. -/
theorem claim_C9_update_frame (now iid : Nat) (s fb : String) (db : DB) :
    (update_initiative_status now iid s fb db).rag_knowledge = db.rag_knowledge ∧
    (update_initiative_status now iid s fb db).document_analysis
        = db.document_analysis ∧
    (update_initiative_status now iid s fb db).initiatives.length
        = db.initiatives.length ∧
    ∀ i, ∀ h : i < db.initiatives.length,
      ∀ h2 : i < (update_initiative_status now iid s fb db).initiatives.length,
      ((update_initiative_status now iid s fb db).initiatives.get ⟨i, h2⟩).id
          = (db.initiatives.get ⟨i, h⟩).id ∧
      ((update_initiative_status now iid s fb db).initiatives.get ⟨i, h2⟩).employee_id
          = (db.initiatives.get ⟨i, h⟩).employee_id ∧
      ((update_initiative_status now iid s fb db).initiatives.get ⟨i, h2⟩).employee_name
          = (db.initiatives.get ⟨i, h⟩).employee_name ∧
      ((update_initiative_status now iid s fb db).initiatives.get ⟨i, h2⟩).department
          = (db.initiatives.get ⟨i, h⟩).department ∧
      ((update_initiative_status now iid s fb db).initiatives.get ⟨i, h2⟩).title
          = (db.initiatives.get ⟨i, h⟩).title ∧
      ((update_initiative_status now iid s fb db).initiatives.get ⟨i, h2⟩).description
          = (db.initiatives.get ⟨i, h⟩).description ∧
      ((update_initiative_status now iid s fb db).initiatives.get ⟨i, h2⟩).goals
          = (db.initiatives.get ⟨i, h⟩).goals ∧
      ((update_initiative_status now iid s fb db).initiatives.get ⟨i, h2⟩).requirements
          = (db.initiatives.get ⟨i, h⟩).requirements ∧
      ((update_initiative_status now iid s fb db).initiatives.get ⟨i, h2⟩).budget
          = (db.initiatives.get ⟨i, h⟩).budget ∧
      ((update_initiative_status now iid s fb db).initiatives.get ⟨i, h2⟩).ai_feedback
          = (db.initiatives.get ⟨i, h⟩).ai_feedback ∧
      ((update_initiative_status now iid s fb db).initiatives.get ⟨i, h2⟩).created_at
          = (db.initiatives.get ⟨i, h⟩).created_at ∧
      ((db.initiatives.get ⟨i, h⟩).id ≠ iid →
        (update_initiative_status now iid s fb db).initiatives.get ⟨i, h2⟩
            = db.initiatives.get ⟨i, h⟩) := by
  refine ⟨rfl, rfl, by simp [update_initiative_status], ?_⟩
  intro i h h2
  have e : (update_initiative_status now iid s fb db).initiatives.get ⟨i, h2⟩
      = (fun r : Initiative =>
          if r.id = iid then
            { r with status := s, admin_feedback := fb, updated_at := now }
          else r) (db.initiatives.get ⟨i, h⟩) := by
    simp [update_initiative_status, List.get_eq_getElem]
  rw [e]
  simp only [List.get_eq_getElem]
  by_cases hid : db.initiatives[i].id = iid
  · simp [hid]
  · simp [hid]

/-- Concrete instance of claim C9: after retargeting row id 1, every other
field of the row and the other two tables are exactly as before. -/
theorem claim_C9_update_frame_witness :
    (update_initiative_status 20 1 "approved" "x" dbOneInitiative).rag_knowledge
        = dbOneInitiative.rag_knowledge ∧
    (update_initiative_status 20 1 "approved" "x" dbOneInitiative).document_analysis
        = dbOneInitiative.document_analysis ∧
    ((update_initiative_status 20 1 "approved" "x" dbOneInitiative).initiatives.get
        ⟨0, by decide⟩).title
      = ((dbOneInitiative.initiatives.get ⟨0, by decide⟩)).title := by
  refine ⟨(claim_C9_update_frame 20 1 "approved" "x" dbOneInitiative).1,
    (claim_C9_update_frame 20 1 "approved" "x" dbOneInitiative).2.1,
    ((claim_C9_update_frame 20 1 "approved" "x" dbOneInitiative).2.2.2 0
      (by decide) (by decide)).2.2.2.2.1⟩

/-! ## Claim C6: review filtering -/

/-- Claim C6: for every store state and filter combination, the review query
returns exactly the initiative rows that satisfy every supplied filter —
status exact-match when a status other than the `"الكل"` sentinel is chosen,
department exact-match when a department other than the sentinel is chosen,
and budget ≤ the budget bound always — as a permutation of the filtered
table, ordered newest first by creation timestamp. -/
theorem claim_C6_review_filters (sf df : String) (bf : Int) (db : DB) :
    List.Perm (review_initiatives_query sf df bf db)
      (db.initiatives.filter (matchesReviewFilters sf df bf)) ∧
    (∀ r, r ∈ review_initiatives_query sf df bf db ↔
        r ∈ db.initiatives ∧ matchesReviewFilters sf df bf r = true) ∧
    List.Pairwise newerFirst (review_initiatives_query sf df bf db) ∧
    (∀ r, r ∈ review_initiatives_query sf df bf db →
        (sf ≠ "الكل" → r.status = sf) ∧ (df ≠ "الكل" → r.department = df)
          ∧ r.budget ≤ bf) := by
  have hperm := List.perm_insertionSort newerFirst
    (db.initiatives.filter (matchesReviewFilters sf df bf))
  refine ⟨hperm, ?_, ?_, ?_⟩
  · intro r
    rw [show review_initiatives_query sf df bf db
        = List.insertionSort newerFirst
            (db.initiatives.filter (matchesReviewFilters sf df bf)) from rfl,
      hperm.mem_iff, List.mem_filter]
  · exact List.sorted_insertionSort newerFirst _
  · intro r hr
    have hmem : r ∈ db.initiatives.filter (matchesReviewFilters sf df bf) :=
      hperm.mem_iff.mp hr
    rw [List.mem_filter] at hmem
    have hm := hmem.2
    simp only [matchesReviewFilters, Bool.and_eq_true, Bool.or_eq_true,
      beq_iff_eq, decide_eq_true_eq] at hm
    refine ⟨fun hsf => ?_, fun hdf => ?_, hm.2⟩
    · rcases hm.1.1 with h | h
      · exact absurd h hsf
      · exact h
    · rcases hm.1.2 with h | h
      · exact absurd h hdf
      · exact h

/-- Two initiative rows used to exercise the review filters. -/
def recOld : Initiative :=
  { id := 1
    employee_id := "E1"
    employee_name := "Ali"
    department := "تقنية المعلومات"
    title := "T1"
    description := "D"
    goals := "G"
    requirements := "R"
    budget := 40000
    status := "approved"
    ai_feedback := "fb"
    admin_feedback := ""
    created_at := 10
    updated_at := 10 }

/-- A second, newer row with a budget above the 50000 bound. -/
def recNew : Initiative :=
  { recOld with
      id := 2
      status := "approved"
      budget := 60000
      created_at := 20
      updated_at := 20 }

/-- A store holding `recOld` and `recNew` in insertion order. -/
def dbTwoInitiatives : DB := ⟨[recOld, recNew], [], []⟩

/-- Concrete instances of claim C6 at
`status = "approved", department = sentinel, maxBudget = 50000`: the approved
row within budget is returned, the over-budget row is not, and the output is
sorted newest first. -/
theorem claim_C6_review_filters_witness :
    recOld ∈ review_initiatives_query "approved" "الكل" 50000 dbTwoInitiatives ∧
    recNew ∉ review_initiatives_query "approved" "الكل" 50000 dbTwoInitiatives ∧
    List.Pairwise newerFirst
      (review_initiatives_query "approved" "الكل" 50000 dbTwoInitiatives) := by
  refine ⟨?_, ?_, (claim_C6_review_filters "approved" "الكل" 50000 dbTwoInitiatives).2.2.1⟩
  · exact ((claim_C6_review_filters "approved" "الكل" 50000 dbTwoInitiatives).2.1
      recOld).mpr ⟨by decide, by decide⟩
  · intro hmem
    have := (((claim_C6_review_filters "approved" "الكل" 50000
      dbTwoInitiatives).2.1 recNew).mp hmem).2
    revert this
    decide

/-! ## Claim C8: document analysis -/

/-- Claim C8: for every document-analysis request, the document text embedded
in the prompt is the extracted text truncated to at most 15000 characters,
the prompt is the template matching the chosen analysis kind (the result
shown is the external call on exactly that prompt), and a document-analysis
row — carrying the file name, the kind's label, the result and the submitter
— is persisted if and only if a submitter identifier is supplied. -/
theorem claim_C8_document_analysis (api : String → String) (now : Nat)
    (file_name text : String) (atype : AnalysisType) (custom : String)
    (employee_id : String) (db : DB) :
    (analyze_document api now file_name text atype custom employee_id db).1
        = api (analysis_prompt atype text custom) ∧
    analysis_prompt atype text custom
        = analysis_prompt_head atype ++ strTake text 15000
            ++ analysis_prompt_tail atype custom ∧
    (strTake text 15000).length ≤ 15000 ∧
    (employee_id ≠ "" →
      (analyze_document api now file_name text atype custom employee_id db).2
          = { db with document_analysis := db.document_analysis ++
              [{ id := db.document_analysis.length + 1
                 file_name := file_name
                 analysis_type := analysisTypeLabel atype
                 analysis_result := api (analysis_prompt atype text custom)
                 employee_id := some employee_id
                 created_at := now }] }) ∧
    (employee_id = "" →
      (analyze_document api now file_name text atype custom employee_id db).2 = db) := by
  refine ⟨?_, rfl, strTake_length_le _ _, ?_, ?_⟩
  · by_cases h : employee_id = "" <;> simp [analyze_document, h]
  · intro h
    simp [analyze_document, h, save_document_analysis]
  · intro h
    simp [analyze_document, h]

/-- Concrete instances of claim C8: with a submitter id one summarize-type
analysis row is persisted; without one the store stays as it was. -/
theorem claim_C8_document_analysis_witness :
    (analyze_document stubApi 4 "f.pdf" "doc" .summarize "" "E9" emptyDB).2
        = { emptyDB with document_analysis :=
            [{ id := 1
               file_name := "f.pdf"
               analysis_type := "تلخيص المستند"
               analysis_result := stubApi (analysis_prompt .summarize "doc" "")
               employee_id := some "E9"
               created_at := 4 }] } ∧
    (analyze_document stubApi 4 "f.pdf" "doc" .summarize "" "" emptyDB).2 = emptyDB := by
  refine ⟨?_, (claim_C8_document_analysis stubApi 4 "f.pdf" "doc" .summarize "" ""
    emptyDB).2.2.2.2 rfl⟩
  exact (claim_C8_document_analysis stubApi 4 "f.pdf" "doc" .summarize "" "E9"
    emptyDB).2.2.2.1 (by decide)

end SmartInit
